import Mathlib

/-!
Shallow embedding of `src/project/models.py` (Client, Package, AirCompany,
Report) and proofs about it.

Python strings are modelled as Lean `String`; Python string comparison
(`==`, `<=`, `<`) is code-point lexicographic in both languages.  The
mutating methods of the source are modelled by explicit state passing:
`AirCompany.transport_package` returns the updated company, the updated
package and the `Option String` of the exception message it raises (Python
mutates the shared `Package` object and appends that same object to
`self._packages`; the pure model returns the updated package value and
stores that same value).
-/

/-- `class Client` of models.py: a dataclass with a single `name` field. -/
structure Client where
  name : String
deriving DecidableEq, Repr

/-- `class Package` of models.py.  `_ship_date` starts out `""` and
`_is_transported` starts out `False`; `_shipping_date_format` is the
constant `"%Y-%m-%d"`, folded into `validate_ship_date` below. -/
structure Package where
  origin : String
  destination : String
  client : Client
  ship_date : String := ""
  is_transported : Bool := false
deriving DecidableEq, Repr

/-- Value of an ASCII digit character (only applied to digits). -/
def digitVal (c : Char) : Nat := c.toNat - 48

/-- One mandatory digit, as in CPython's `_strptime` regex fragments. -/
def parseDigit : List Char → Option (Nat × List Char)
  | c :: rest => if c.isDigit then some (digitVal c, rest) else none
  | [] => none

/-- One or two digits, greedily, as the `%m` / `%d` regex alternations
`1[0-2]|0[1-9]|[1-9]` and `3[01]|[12]\d|0[1-9]|[1-9]` consume them (the
two-digit alternatives are tried first; a failed two-digit numeric-range
match can never be rescued by backtracking to one digit, because the
following character would then be a digit where the format requires `-`
or the end of the string, so greedy consumption with a separate range
check recognises the same strings). -/
def parseNum2 : List Char → Option (Nat × List Char)
  | c1 :: c2 :: rest =>
      if c1.isDigit then
        if c2.isDigit then some (digitVal c1 * 10 + digitVal c2, rest)
        else some (digitVal c1, c2 :: rest)
      else none
  | [c1] => if c1.isDigit then some (digitVal c1, []) else none
  | [] => none

/-- The literal `-` of the format string. -/
def expectDash : List Char → Option (List Char)
  | '-' :: rest => some rest
  | _ => none

/-- Leap-year rule used by `datetime` (proleptic Gregorian). -/
def isLeapYear (y : Nat) : Bool := y % 4 == 0 && (y % 100 != 0 || y % 400 == 0)

/-- `_days_in_month` of `datetime`: `[31,28,31,30,31,30,31,31,30,31,30,31]`
with 29 for February of a leap year. -/
def daysInMonth (y m : Nat) : Nat :=
  if m == 2 then (if isLeapYear y then 29 else 28)
  else if m == 4 || m == 6 || m == 9 || m == 11 then 30
  else 31

/-- The lexical phase of `datetime.strptime(s, "%Y-%m-%d")`: `%Y` is exactly
four digits (regex `\d\d\d\d`), each `-` is literal, `%m` and `%d` are one
or two digits, and no unconverted data may remain. -/
def parseYmd (cs : List Char) : Option (Nat × Nat × Nat) := do
  let (a, cs) ← parseDigit cs
  let (b, cs) ← parseDigit cs
  let (c, cs) ← parseDigit cs
  let (d, cs) ← parseDigit cs
  let cs ← expectDash cs
  let (m, cs) ← parseNum2 cs
  let cs ← expectDash cs
  let (dd, cs) ← parseNum2 cs
  if cs.isEmpty then some (((a * 10 + b) * 10 + c) * 10 + d, m, dd) else none

/-- `datetime.strptime(s, "%Y-%m-%d")` succeeds: the lexical phase above,
the numeric ranges enforced by the regex alternations (month 1..12, day
1..31), and the `datetime` constructor's checks (year at least `MINYEAR = 1`;
the four-digit year is at most 9999 = `MAXYEAR` automatically; day at most
the length of the month). -/
def validYmd (s : String) : Bool :=
  match parseYmd s.data with
  | some (y, m, d) =>
      decide (1 ≤ m) && decide (m ≤ 12) && decide (1 ≤ d) && decide (d ≤ 31) &&
      decide (1 ≤ y) && decide (d ≤ daysInMonth y m)
  | none => false

/-- Numeric value of a digit string, most significant digit first. -/
def digitsVal (cs : List Char) : Nat :=
  cs.foldl (fun acc c => acc * 10 + digitVal c) 0

/-- The ship-date format exactly as the specification words it: fixed
format "YYYY-MM-DD" — four-digit year, two-digit month 01–12, two-digit
day valid for that month and year under Gregorian calendar rules.  Written
from the specification's words, to be compared with the source's
`validate_ship_date`. -/
def strictCalendarDate (s : String) : Bool :=
  match s.data with
  | [y1, y2, y3, y4, '-', m1, m2, '-', d1, d2] =>
      y1.isDigit && y2.isDigit && y3.isDigit && y4.isDigit &&
      m1.isDigit && m2.isDigit && d1.isDigit && d2.isDigit &&
      (let y := ((digitVal y1 * 10 + digitVal y2) * 10 + digitVal y3) * 10 +
        digitVal y4
       let m := digitVal m1 * 10 + digitVal m2
       let d := digitVal d1 * 10 + digitVal d2
       decide (1 ≤ m) && decide (m ≤ 12) && decide (1 ≤ d) &&
       decide (d ≤ daysInMonth y m))
  | _ => false

/-- `Package.validate_origin_destination`: are origin and destination
different? -/
def Package.validate_origin_destination (package : Package) : Bool :=
  package.origin != package.destination

/-- `Package.validate_ship_date`: `True` unless
`datetime.strptime(ship_date, self._shipping_date_format)` raises
`ValueError`, with the format fixed to `"%Y-%m-%d"`. -/
def Package.validate_ship_date (_ : Package) (ship_date : String) : Bool :=
  validYmd ship_date

/-- `class AirCompany` of models.py: a name, the `_packages` accumulated by
successful transports, and the `_clients` roster. -/
structure AirCompany where
  name : String
  packages : List Package := []
  clients : List Client := []
deriving DecidableEq, Repr

/-- `AirCompany.add_client`: append the client to the roster. -/
def AirCompany.add_client (company : AirCompany) (client : Client) : AirCompany :=
  { company with clients := company.clients ++ [client] }

/-- `AirCompany.validate_can_transport_package`: the package's client's name
occurs among the roster's client names (string equality). -/
def AirCompany.validate_can_transport_package
    (company : AirCompany) (package : Package) : Bool :=
  let client_names := company.clients.map Client.name
  client_names.contains package.client.name

/-- `AirCompany.get_packages`. -/
def AirCompany.get_packages (company : AirCompany) : List Package :=
  company.packages

/-- Result of one `transport_package` call: the company and package after
the call, and the message of the raised exception, if any. -/
structure TransportResult where
  company : AirCompany
  package : Package
  error : Option String
deriving DecidableEq, Repr

/-- `AirCompany.transport_package`: on the success path the package is
marked transported, stamped with the ship date and appended to
`self._packages`; otherwise one of four exceptions is raised.  The final
`else` models Python's fall-through return of `None` when no `elif` guard
fires (unreachable, as proved below). -/
def AirCompany.transport_package
    (company : AirCompany) (package : Package) (ship_date : String) :
    TransportResult :=
  let is_valid_ship_date := package.validate_ship_date ship_date
  let can_transport_package := company.validate_can_transport_package package
  if is_valid_ship_date && can_transport_package &&
      package.validate_origin_destination then
    let package := { package with is_transported := true, ship_date := ship_date }
    { company := { company with packages := company.packages ++ [package] },
      package := package,
      error := none }
  else if !is_valid_ship_date && !can_transport_package then
    { company := company, package := package,
      error := some ("Invalid Shipping date and client: " ++
        package.client.name ++ " is not a Client") }
  else if !is_valid_ship_date then
    { company := company, package := package,
      error := some "Invalid Shipping Date" }
  else if !can_transport_package then
    { company := company, package := package,
      error := some ("Client: " ++ package.client.name ++ " is not a Client") }
  else if !package.validate_origin_destination then
    { company := company, package := package,
      error := some "Origin and destination are the same." }
  else
    { company := company, package := package, error := none }

/-- `class Report` of models.py: wraps the company it reports on. -/
structure Report where
  company : AirCompany
deriving DecidableEq, Repr

/-- `Report.generate_report`: filter the company's packages by exact
ship-date string equality; return the count and the count times 10. -/
def Report.generate_report (report : Report) (ship_date : String) : Nat × Nat :=
  let packages := report.company.get_packages
  let total_packages_per_date :=
    packages.filter (fun p => p.ship_date == ship_date)
  let total_packages := total_packages_per_date.length
  let total_collected := total_packages * 10
  (total_packages, total_collected)

/-- `Report.generate_report_by_dates`: filter by the chained Python
comparison `start_ship_date <= p.ship_date < end_ship_date` (lexicographic
on code points, as in Python); return the count and the count times 10. -/
def Report.generate_report_by_dates
    (report : Report) (start_ship_date end_ship_date : String) : Nat × Nat :=
  let packages := report.company.get_packages
  let total_packages_per_date :=
    packages.filter (fun p =>
      decide (start_ship_date ≤ p.ship_date) &&
      decide (p.ship_date < end_ship_date))
  let total_packages := total_packages_per_date.length
  let total_collected := total_packages * 10
  (total_packages, total_collected)

/-! ### Concrete fixtures (mirroring the objects built in `src/tests.py`) -/

/-- `Client(name="client a")`. -/
def client0 : Client := { name := "client a" }

/-- `Package(origin="Miami", destination="New York", client=client0)`. -/
def package0 : Package := { origin := "Miami", destination := "New York", client := client0 }

/-- `AirCompany(name="company a")` after `add_client(client0)`. -/
def company1 : AirCompany :=
  ({ name := "company a" } : AirCompany).add_client client0

/-- A package already shipped on the flexible date string "2024-2-1"
(accepted by the date check) inside a company, as produced by a successful
`transport_package` call. -/
def packageFlex : Package :=
  { origin := "Miami", destination := "New York", client := client0,
    ship_date := "2024-2-1", is_transported := true }

/-- The company holding `packageFlex`. -/
def companyFlex : AirCompany :=
  { name := "company a", packages := [packageFlex], clients := [client0] }

/-- A package already shipped on "2024-03-01" inside a company. -/
def packageMarch : Package :=
  { origin := "Miami", destination := "New York", client := client0,
    ship_date := "2024-03-01", is_transported := true }

/-- The company holding `packageMarch`. -/
def companyMarch : AirCompany :=
  { name := "company a", packages := [packageMarch], clients := [client0] }

/-- A package referencing a `Client` value built independently of
`client0` but carrying the same name (in the Python source these are two
distinct `Client` objects). -/
def packageAlias : Package :=
  { origin := "Miami", destination := "New York",
    client := { name := "client a" } }

/-- The result of transporting `package0` once through `company1`. -/
def transportOnce : TransportResult :=
  company1.transport_package package0 "2024-02-01"

/-- The result of transporting the already-transported package a second
time, on the same date. -/
def transportTwice : TransportResult :=
  transportOnce.company.transport_package transportOnce.package "2024-02-01"


/-- The AirCompany states reachable from a fresh company through the
public API.  `add_client` and `transport_package` are the only operations
that touch state; the two report queries of `Report` return a pair of
numbers and no state, so in this embedding their inability to mutate the
company is definitional. -/
inductive Reachable : AirCompany → Prop
  | init (name : String) : Reachable { name := name }
  | add_client (company : AirCompany) (client : Client) :
      Reachable company → Reachable (company.add_client client)
  | transport (company : AirCompany) (package : Package) (ship_date : String) :
      Reachable company →
      Reachable (company.transport_package package ship_date).company

/-! ### Helper lemmas -/

lemma can_transport_iff (company : AirCompany) (package : Package) :
    company.validate_can_transport_package package = true ↔
      ∃ c ∈ company.clients, c.name = package.client.name := by
  simp [AirCompany.validate_can_transport_package,
    List.contains_iff_exists_mem_beq, List.mem_map]

lemma origin_ne_iff (package : Package) :
    package.validate_origin_destination = true ↔
      package.origin ≠ package.destination := by
  simp [Package.validate_origin_destination, bne_iff_ne]

/-- C1 — For every AirCompany, every Package `P` whose client's name equals
the name of some client in the roster, with `P.origin ≠ P.destination`, and
every ship-date string `D` passing the calendar-date check,
`transport_package` succeeds (raises nothing); afterwards the package is
marked transported, carries ship date `D` and has been appended to the
company's `packages` exactly once; conversely the call succeeds only when
all three predicates hold. -/
theorem transport_package_accepts_iff
    (company : AirCompany) (P : Package) (D : String) :
    ((company.transport_package P D).error = none ↔
      (P.validate_ship_date D = true ∧
        (∃ c ∈ company.clients, c.name = P.client.name) ∧
        P.origin ≠ P.destination)) ∧
    ((company.transport_package P D).error = none →
      company.transport_package P D =
        { company := { company with packages :=
            company.packages ++ [{ P with is_transported := true, ship_date := D }] },
          package := { P with is_transported := true, ship_date := D },
          error := none } ∧
      ({ P with is_transported := true, ship_date := D } : Package).is_transported
        = true ∧
      ({ P with is_transported := true, ship_date := D } : Package).ship_date = D ∧
      (company.transport_package P D).company.packages.count
          { P with is_transported := true, ship_date := D } =
        company.packages.count { P with is_transported := true, ship_date := D }
          + 1) := by
  rw [← can_transport_iff, ← origin_ne_iff]
  cases hA : P.validate_ship_date D <;>
    cases hB : company.validate_can_transport_package P <;>
      cases hC : P.validate_origin_destination <;>
        simp [AirCompany.transport_package, hA, hB, hC, List.count_append]

/-- C2 — Whenever `transport_package` fails (raises), no mutation occurs:
the package's `is_transported` and `ship_date` fields and the company's
`packages` and `clients` collections are all unchanged. -/
theorem transport_package_failure_no_mutation
    (company : AirCompany) (P : Package) (D : String)
    (h : (company.transport_package P D).error ≠ none) :
    (company.transport_package P D).company = company ∧
    (company.transport_package P D).package = P ∧
    (company.transport_package P D).company.packages = company.packages ∧
    (company.transport_package P D).company.clients = company.clients ∧
    (company.transport_package P D).package.is_transported = P.is_transported ∧
    (company.transport_package P D).package.ship_date = P.ship_date := by
  cases hA : P.validate_ship_date D <;>
    cases hB : company.validate_can_transport_package P <;>
      cases hC : P.validate_origin_destination <;>
        simp [AirCompany.transport_package, hA, hB, hC] at h ⊢

/-- Witness for C2 at a concrete failing call: transporting a package whose
client is not registered (fresh company, no roster) leaves everything
unchanged. -/
theorem transport_package_failure_no_mutation_witness :
    (({ name := "company a" } : AirCompany).transport_package package0
        "2024-02-01").error ≠ none ∧
    ((({ name := "company a" } : AirCompany).transport_package package0
        "2024-02-01").company = { name := "company a" } ∧
      (({ name := "company a" } : AirCompany).transport_package package0
        "2024-02-01").package = package0 ∧
      (({ name := "company a" } : AirCompany).transport_package package0
        "2024-02-01").company.packages = ({ name := "company a" } : AirCompany).packages ∧
      (({ name := "company a" } : AirCompany).transport_package package0
        "2024-02-01").company.clients = ({ name := "company a" } : AirCompany).clients ∧
      (({ name := "company a" } : AirCompany).transport_package package0
        "2024-02-01").package.is_transported = package0.is_transported ∧
      (({ name := "company a" } : AirCompany).transport_package package0
        "2024-02-01").package.ship_date = package0.ship_date) :=
  ⟨by decide,
    transport_package_failure_no_mutation { name := "company a" } package0
      "2024-02-01" (by decide)⟩

/-- C4 — The origin/destination check is evaluated and reported only after
the ship-date and client checks pass: with `origin = destination` and an
invalid ship date (client registered) the failure is exactly
"Invalid Shipping Date"; with `origin = destination` and an unregistered
client (valid date) the failure is exactly the client message. -/
theorem origin_check_evaluated_last
    (company : AirCompany) (P : Package) (D : String) :
    (P.origin = P.destination →
      P.validate_ship_date D = false →
      company.validate_can_transport_package P = true →
      (company.transport_package P D).error = some "Invalid Shipping Date") ∧
    (P.origin = P.destination →
      P.validate_ship_date D = true →
      company.validate_can_transport_package P = false →
      (company.transport_package P D).error =
        some ("Client: " ++ P.client.name ++ " is not a Client")) := by
  constructor
  · intro _ hA hB
    simp [AirCompany.transport_package, hA, hB]
  · intro _ hA hB
    simp [AirCompany.transport_package, hA, hB]

lemma combined_msg_ne_date_msg (n : String) :
    ("Invalid Shipping date and client: " ++ n ++ " is not a Client") ≠
      "Invalid Shipping Date" := by
  intro h
  have hd := congrArg (fun s => s.data.take 18) h
  simp only [String.data_append] at hd
  rw [List.append_assoc,
    List.take_append_of_le_length (by decide :
      18 ≤ ("Invalid Shipping date and client: ").data.length)] at hd
  exact absurd hd (by decide)

lemma combined_msg_ne_client_msg (n : String) :
    ("Invalid Shipping date and client: " ++ n ++ " is not a Client") ≠
      ("Client: " ++ n ++ " is not a Client") := by
  intro h
  have hd := congrArg String.data h
  simp only [String.data_append] at hd
  simp at hd

lemma combined_msg_ne_origin_msg (n : String) :
    ("Invalid Shipping date and client: " ++ n ++ " is not a Client") ≠
      "Origin and destination are the same." := by
  intro h
  have hd := congrArg String.data h
  simp only [String.data_append] at hd
  simp at hd

lemma date_msg_ne_client_msg (n : String) :
    ("Invalid Shipping Date" : String) ≠ ("Client: " ++ n ++ " is not a Client") := by
  intro h
  have hd := congrArg String.data h
  simp only [String.data_append] at hd
  simp at hd

lemma client_msg_ne_origin_msg (n : String) :
    ("Client: " ++ n ++ " is not a Client") ≠
      "Origin and destination are the same." := by
  intro h
  have hd := congrArg String.data h
  simp only [String.data_append] at hd
  simp at hd

/-- C5 — When both the ship-date check and the client check fail, the
failure message is exactly the combined message with the client's name
interpolated; the four failure kinds are determined by which predicates
fail, and their four messages are pairwise distinct (hence the kinds are
mutually exclusive). -/
theorem failure_messages (company : AirCompany) (P : Package) (D : String) :
    (P.validate_ship_date D = false →
      company.validate_can_transport_package P = false →
      (company.transport_package P D).error =
        some ("Invalid Shipping date and client: " ++ P.client.name ++
          " is not a Client")) ∧
    (P.validate_ship_date D = false →
      company.validate_can_transport_package P = true →
      (company.transport_package P D).error = some "Invalid Shipping Date") ∧
    (P.validate_ship_date D = true →
      company.validate_can_transport_package P = false →
      (company.transport_package P D).error =
        some ("Client: " ++ P.client.name ++ " is not a Client")) ∧
    (P.validate_ship_date D = true →
      company.validate_can_transport_package P = true →
      P.validate_origin_destination = false →
      (company.transport_package P D).error =
        some "Origin and destination are the same.") ∧
    ("Invalid Shipping date and client: " ++ P.client.name ++
        " is not a Client") ≠ "Invalid Shipping Date" ∧
    ("Invalid Shipping date and client: " ++ P.client.name ++
        " is not a Client") ≠
      ("Client: " ++ P.client.name ++ " is not a Client") ∧
    ("Invalid Shipping date and client: " ++ P.client.name ++
        " is not a Client") ≠ "Origin and destination are the same." ∧
    ("Invalid Shipping Date" : String) ≠
      ("Client: " ++ P.client.name ++ " is not a Client") ∧
    ("Invalid Shipping Date" : String) ≠ "Origin and destination are the same." ∧
    ("Client: " ++ P.client.name ++ " is not a Client") ≠
      "Origin and destination are the same." := by
  refine ⟨?_, ?_, ?_, ?_, combined_msg_ne_date_msg _, combined_msg_ne_client_msg _,
    combined_msg_ne_origin_msg _, date_msg_ne_client_msg _, by decide,
    client_msg_ne_origin_msg _⟩
  · intro hA hB
    simp [AirCompany.transport_package, hA, hB]
  · intro hA hB
    simp [AirCompany.transport_package, hA, hB]
  · intro hA hB
    simp [AirCompany.transport_package, hA, hB]
  · intro hA hB hC
    simp [AirCompany.transport_package, hA, hB, hC]

/-- C6 — `generate_report D` returns `(count, count * 10)` where `count` is
the number of stored packages whose `ship_date` equals `D` by exact string
equality; in particular a package shipped on "2024-2-1" is not counted
under "2024-02-01" even though both denote the same calendar day. -/
theorem generate_report_counts (report : Report) (D : String) :
    report.generate_report D =
      (report.company.packages.countP (fun p => p.ship_date == D),
        report.company.packages.countP (fun p => p.ship_date == D) * 10) ∧
    (Report.mk companyFlex).generate_report "2024-02-01" = (0, 0) ∧
    (Report.mk companyFlex).generate_report "2024-2-1" = (1, 10) := by
  refine ⟨?_, by decide, by decide⟩
  simp [Report.generate_report, AirCompany.get_packages,
    List.countP_eq_length_filter]

/-- C7 — `generate_report_by_dates S E` returns `(count, count * 10)` where
`count` counts stored packages with `S ≤ ship_date < E` lexicographically;
the range is half-open: a ship date equal to `E` never satisfies the
filter, one equal to `S` does whenever `S < E`; concretely, the package
shipped on "2024-03-01" is excluded from the range ending at "2024-03-01"
and included in the range starting there. -/
theorem generate_report_by_dates_counts (report : Report) (S E : String) :
    report.generate_report_by_dates S E =
      (report.company.packages.countP
          (fun p => decide (S ≤ p.ship_date) && decide (p.ship_date < E)),
        report.company.packages.countP
          (fun p => decide (S ≤ p.ship_date) && decide (p.ship_date < E)) * 10) ∧
    (∀ p : Package, p.ship_date = E →
      (decide (S ≤ p.ship_date) && decide (p.ship_date < E)) = false) ∧
    (∀ p : Package, p.ship_date = S → S < E →
      (decide (S ≤ p.ship_date) && decide (p.ship_date < E)) = true) ∧
    (Report.mk companyMarch).generate_report_by_dates
      "2024-02-01" "2024-03-01" = (0, 0) ∧
    (Report.mk companyMarch).generate_report_by_dates
      "2024-03-01" "2024-04-01" = (1, 10) := by
  refine ⟨?_, ?_, ?_, ?_, ?_⟩
  · simp [Report.generate_report_by_dates, AirCompany.get_packages,
      List.countP_eq_length_filter]
  · intro p hp
    simp [hp, lt_irrefl]
  · intro p hp hlt
    simp [hp, hlt, le_refl]
  · simp [Report.generate_report_by_dates, AirCompany.get_packages,
      companyMarch, packageMarch, List.filter,
      String.le_iff_toList_le, String.lt_iff_toList_lt]
  · simp [Report.generate_report_by_dates, AirCompany.get_packages,
      companyMarch, packageMarch, List.filter,
      String.le_iff_toList_le, String.lt_iff_toList_lt]
    decide

/-- C8 — Client membership is decided by name string equality, not object
identity: the membership predicate holds iff some roster client's name
equals the package's client's name, and a package whose client was
constructed separately from the registered one (same name) is accepted. -/
theorem membership_by_name (company : AirCompany) (P : Package) :
    (company.validate_can_transport_package P = true ↔
      ∃ c ∈ company.clients, c.name = P.client.name) ∧
    company1.validate_can_transport_package packageAlias = true ∧
    (company1.transport_package packageAlias "2024-02-01").error = none :=
  ⟨can_transport_iff company P, by decide, by decide⟩

/-- C9 — `transport_package` never checks `is_transported`: transporting
the same package twice succeeds both times and leaves it in `packages`
twice, where `generate_report` counts it twice; so "present exactly once"
holds only per successful call. -/
theorem transport_package_no_retransport_guard :
    transportOnce.error = none ∧
    transportTwice.error = none ∧
    transportTwice.package ∈ transportTwice.company.packages ∧
    transportTwice.company.packages.count transportTwice.package = 2 ∧
    (Report.mk transportTwice.company).generate_report "2024-02-01" =
      (2, 20) := by decide


/-! ### Characterisation of the accepted ship-date strings -/

lemma parseDigit_some_inv {cs rest : List Char} {n : Nat}
    (h : parseDigit cs = some (n, rest)) :
    ∃ c, cs = c :: rest ∧ c.isDigit = true ∧ n = digitVal c := by
  cases cs with
  | nil => simp [parseDigit] at h
  | cons c cs' =>
      by_cases hc : c.isDigit
      · simp [parseDigit, hc] at h
        exact ⟨c, by rw [h.2], hc, h.1.symm⟩
      · simp [parseDigit, hc] at h

lemma parseNum2_some_inv {cs rest : List Char} {n : Nat}
    (h : parseNum2 cs = some (n, rest)) :
    (∃ c1 c2, cs = c1 :: c2 :: rest ∧ c1.isDigit = true ∧ c2.isDigit = true ∧
      n = digitVal c1 * 10 + digitVal c2) ∨
    (∃ c1, cs = c1 :: rest ∧ c1.isDigit = true ∧ n = digitVal c1) := by
  match cs with
  | [] => simp [parseNum2] at h
  | [c1] =>
      by_cases h1 : c1.isDigit
      · simp [parseNum2, h1] at h
        exact Or.inr ⟨c1, by rw [h.2], h1, h.1.symm⟩
      · simp [parseNum2, h1] at h
  | c1 :: c2 :: cs' =>
      by_cases h1 : c1.isDigit
      · by_cases h2 : c2.isDigit
        · simp [parseNum2, h1, h2] at h
          exact Or.inl ⟨c1, c2, by rw [h.2], h1, h2, h.1.symm⟩
        · simp [parseNum2, h1, h2] at h
          exact Or.inr ⟨c1, by rw [← h.2], h1, h.1.symm⟩
      · simp [parseNum2, h1] at h

lemma expectDash_some_inv {cs rest : List Char}
    (h : expectDash cs = some rest) : cs = '-' :: rest := by
  rw [expectDash.eq_def] at h
  split at h
  · next rest' => cases h; rfl
  · cases h

lemma digitsVal_one (c : Char) : digitsVal [c] = digitVal c := by
  simp [digitsVal]

lemma digitsVal_two (c1 c2 : Char) :
    digitsVal [c1, c2] = digitVal c1 * 10 + digitVal c2 := by
  simp [digitsVal]

lemma digitsVal_four (a b c d : Char) :
    digitsVal [a, b, c, d] =
      ((digitVal a * 10 + digitVal b) * 10 + digitVal c) * 10 + digitVal d := by
  simp [digitsVal]

lemma parseYmd_some_inv {cs : List Char} {y m d : Nat}
    (h : parseYmd cs = some (y, m, d)) :
    ∃ ys ms ds : List Char,
      cs = ys ++ '-' :: (ms ++ '-' :: ds) ∧
      ys.length = 4 ∧ (∀ c ∈ ys, c.isDigit = true) ∧
      (ms.length = 1 ∨ ms.length = 2) ∧ (∀ c ∈ ms, c.isDigit = true) ∧
      (ds.length = 1 ∨ ds.length = 2) ∧ (∀ c ∈ ds, c.isDigit = true) ∧
      y = digitsVal ys ∧ m = digitsVal ms ∧ d = digitsVal ds := by
  unfold parseYmd at h
  simp only [bind, Option.bind_eq_some] at h
  obtain ⟨⟨a, cs1⟩, ha, h⟩ := h
  obtain ⟨⟨b, cs2⟩, hb, h⟩ := h
  obtain ⟨⟨c, cs3⟩, hc, h⟩ := h
  obtain ⟨⟨e, cs4⟩, he, h⟩ := h
  obtain ⟨cs5, hdash1, h⟩ := h
  obtain ⟨⟨mv, cs6⟩, hm, h⟩ := h
  obtain ⟨cs7, hdash2, h⟩ := h
  obtain ⟨⟨dv, cs8⟩, hd, h⟩ := h
  split at h
  case isTrue hemp =>
    obtain ⟨c1, rfl, hc1, rfl⟩ := parseDigit_some_inv ha
    obtain ⟨c2, rfl, hc2, rfl⟩ := parseDigit_some_inv hb
    obtain ⟨c3, rfl, hc3, rfl⟩ := parseDigit_some_inv hc
    obtain ⟨c4, rfl, hc4, rfl⟩ := parseDigit_some_inv he
    have h5 := expectDash_some_inv hdash1
    subst h5
    have h7 := expectDash_some_inv hdash2
    have h8 : cs8 = [] := by simpa [List.isEmpty_iff] using hemp
    subst h8
    obtain ⟨hy, hm', hd'⟩ :
        ((((digitVal c1 * 10 + digitVal c2) * 10 + digitVal c3) * 10 +
          digitVal c4) = y) ∧ mv = m ∧ dv = d := by
      simpa using h
    rcases parseNum2_some_inv hm with
        ⟨m1, m2, hcs5, hm1, hm2, hmv⟩ | ⟨m1, hcs5, hm1, hmv⟩ <;>
      rcases parseNum2_some_inv hd with
          ⟨d1, d2, hcs7, hd1, hd2, hdv⟩ | ⟨d1, hcs7, hd1, hdv⟩ <;>
        subst hcs5 <;> subst h7 <;> subst hcs7
    · exact ⟨[c1, c2, c3, c4], [m1, m2], [d1, d2], by simp, by simp,
        by simp [hc1, hc2, hc3, hc4], by simp, by simp [hm1, hm2], by simp,
        by simp [hd1, hd2], by rw [← hy, digitsVal_four],
        by rw [← hm', hmv, digitsVal_two], by rw [← hd', hdv, digitsVal_two]⟩
    · exact ⟨[c1, c2, c3, c4], [m1, m2], [d1], by simp, by simp,
        by simp [hc1, hc2, hc3, hc4], by simp, by simp [hm1, hm2], by simp,
        by simp [hd1], by rw [← hy, digitsVal_four],
        by rw [← hm', hmv, digitsVal_two], by rw [← hd', hdv, digitsVal_one]⟩
    · exact ⟨[c1, c2, c3, c4], [m1], [d1, d2], by simp, by simp,
        by simp [hc1, hc2, hc3, hc4], by simp, by simp [hm1], by simp,
        by simp [hd1, hd2], by rw [← hy, digitsVal_four],
        by rw [← hm', hmv, digitsVal_one], by rw [← hd', hdv, digitsVal_two]⟩
    · exact ⟨[c1, c2, c3, c4], [m1], [d1], by simp, by simp,
        by simp [hc1, hc2, hc3, hc4], by simp, by simp [hm1], by simp,
        by simp [hd1], by rw [← hy, digitsVal_four],
        by rw [← hm', hmv, digitsVal_one], by rw [← hd', hdv, digitsVal_one]⟩
  case isFalse => cases h

lemma daysInMonth_le_31 (y m : Nat) : daysInMonth y m ≤ 31 := by
  unfold daysInMonth
  split
  · split <;> omega
  · split <;> omega

lemma dash_not_digit : ('-').isDigit = false := by decide

lemma length_four_shape {l : List Char} (h : l.length = 4) :
    ∃ a b c d, l = [a, b, c, d] := by
  match l, h with
  | [a, b, c, d], _ => exact ⟨a, b, c, d, rfl⟩

lemma length_one_shape {l : List Char} (h : l.length = 1) : ∃ a, l = [a] := by
  match l, h with
  | [a], _ => exact ⟨a, rfl⟩

lemma length_two_shape {l : List Char} (h : l.length = 2) :
    ∃ a b, l = [a, b] := by
  match l, h with
  | [a, b], _ => exact ⟨a, b, rfl⟩

lemma validYmd_iff (s : String) :
    validYmd s = true ↔
      ∃ ys ms ds : List Char,
        s.data = ys ++ '-' :: (ms ++ '-' :: ds) ∧
        ys.length = 4 ∧ (∀ c ∈ ys, c.isDigit = true) ∧
        (ms.length = 1 ∨ ms.length = 2) ∧ (∀ c ∈ ms, c.isDigit = true) ∧
        (ds.length = 1 ∨ ds.length = 2) ∧ (∀ c ∈ ds, c.isDigit = true) ∧
        1 ≤ digitsVal ys ∧ 1 ≤ digitsVal ms ∧ digitsVal ms ≤ 12 ∧
        1 ≤ digitsVal ds ∧
        digitsVal ds ≤ daysInMonth (digitsVal ys) (digitsVal ms) := by
  constructor
  · intro h
    unfold validYmd at h
    cases hp : parseYmd s.data with
    | none => rw [hp] at h; cases h
    | some t =>
        obtain ⟨y, m, d⟩ := t
        rw [hp] at h
        simp only [Bool.and_eq_true, decide_eq_true_eq] at h
        obtain ⟨⟨⟨⟨⟨hm1, hm12⟩, hd1⟩, hd31⟩, hy1⟩, hdm⟩ := h
        obtain ⟨ys, ms, ds, hcs, h4, hysd, hmsl, hmsd, hdsl, hdsd, hy, hm, hd⟩ :=
          parseYmd_some_inv hp
        subst hy; subst hm; subst hd
        exact ⟨ys, ms, ds, hcs, h4, hysd, hmsl, hmsd, hdsl, hdsd,
          hy1, hm1, hm12, hd1, hdm⟩
  · rintro ⟨ys, ms, ds, hcs, h4, hysd, hmsl, hmsd, hdsl, hdsd,
      hy1, hm1, hm12, hd1, hdm⟩
    obtain ⟨y1, y2, y3, y4, rfl⟩ := length_four_shape h4
    have hy1d := hysd y1 (by simp)
    have hy2d := hysd y2 (by simp)
    have hy3d := hysd y3 (by simp)
    have hy4d := hysd y4 (by simp)
    have hp : parseYmd s.data =
        some (digitsVal [y1, y2, y3, y4], digitsVal ms, digitsVal ds) := by
      rcases hmsl with hml | hml
      · obtain ⟨m1, rfl⟩ := length_one_shape hml
        have hm1d := hmsd m1 (by simp)
        rcases hdsl with hdl | hdl
        · obtain ⟨d1, rfl⟩ := length_one_shape hdl
          have hd1d := hdsd d1 (by simp)
          rw [hcs]
          simp [parseYmd, parseDigit, parseNum2, expectDash, bind,
            hy1d, hy2d, hy3d, hy4d, hm1d, hd1d, dash_not_digit,
            digitsVal_four, digitsVal_one]
        · obtain ⟨d1, d2, rfl⟩ := length_two_shape hdl
          have hd1d := hdsd d1 (by simp)
          have hd2d := hdsd d2 (by simp)
          rw [hcs]
          simp [parseYmd, parseDigit, parseNum2, expectDash, bind,
            hy1d, hy2d, hy3d, hy4d, hm1d, hd1d, hd2d, dash_not_digit,
            digitsVal_four, digitsVal_one, digitsVal_two]
      · obtain ⟨m1, m2, rfl⟩ := length_two_shape hml
        have hm1d := hmsd m1 (by simp)
        have hm2d := hmsd m2 (by simp)
        rcases hdsl with hdl | hdl
        · obtain ⟨d1, rfl⟩ := length_one_shape hdl
          have hd1d := hdsd d1 (by simp)
          rw [hcs]
          simp [parseYmd, parseDigit, parseNum2, expectDash, bind,
            hy1d, hy2d, hy3d, hy4d, hm1d, hm2d, hd1d, dash_not_digit,
            digitsVal_four, digitsVal_one, digitsVal_two]
        · obtain ⟨d1, d2, rfl⟩ := length_two_shape hdl
          have hd1d := hdsd d1 (by simp)
          have hd2d := hdsd d2 (by simp)
          rw [hcs]
          simp [parseYmd, parseDigit, parseNum2, expectDash, bind,
            hy1d, hy2d, hy3d, hy4d, hm1d, hm2d, hd1d, hd2d, dash_not_digit,
            digitsVal_four, digitsVal_two]
    unfold validYmd
    rw [hp]
    simp only [Bool.and_eq_true, decide_eq_true_eq]
    exact ⟨⟨⟨⟨⟨hm1, hm12⟩, hd1⟩, le_trans hdm (daysInMonth_le_31 _ _)⟩, hy1⟩, hdm⟩

/-- C3 counterexample — the claim's biconditional fails at the concrete
input "2024-2-1": `validate_ship_date` accepts it (Python's `strptime`
`%m`/`%d` also match single-digit fields), while the claimed strict
"YYYY-MM-DD" format (two-digit month and day) rejects it. -/
theorem validate_ship_date_not_strict_format :
    package0.validate_ship_date "2024-2-1" = true ∧
    strictCalendarDate "2024-2-1" = false := by decide

/-- C3 (amended) — `validate_ship_date` accepts exactly the strings of the
form year-month-day separated by "-", where the year is exactly four
digits with value at least 1, the month is one or two digits with value
1–12, and the day is one or two digits with value valid for that month and
year under Gregorian rules (so single-digit months and days without a
leading zero are also accepted, unlike the strict two-digit "YYYY-MM-DD"
reading); in particular "2024-02-29" is accepted (2024 is a leap year),
"2024-02-30" is rejected, and "2024-2-1" is accepted. -/
theorem validate_ship_date_flexible_format :
    (∀ (P : Package) (s : String),
      P.validate_ship_date s = true ↔
        ∃ ys ms ds : List Char,
          s.data = ys ++ '-' :: (ms ++ '-' :: ds) ∧
          ys.length = 4 ∧ (∀ c ∈ ys, c.isDigit = true) ∧
          (ms.length = 1 ∨ ms.length = 2) ∧ (∀ c ∈ ms, c.isDigit = true) ∧
          (ds.length = 1 ∨ ds.length = 2) ∧ (∀ c ∈ ds, c.isDigit = true) ∧
          1 ≤ digitsVal ys ∧ 1 ≤ digitsVal ms ∧ digitsVal ms ≤ 12 ∧
          1 ≤ digitsVal ds ∧
          digitsVal ds ≤ daysInMonth (digitsVal ys) (digitsVal ms)) ∧
    package0.validate_ship_date "2024-02-29" = true ∧
    package0.validate_ship_date "2024-02-30" = false ∧
    package0.validate_ship_date "2024-2-1" = true :=
  ⟨fun _ s => validYmd_iff s, by decide, by decide, by decide⟩

/-! ### The reachable-state invariant -/

lemma transport_company_eq (c : AirCompany) (pkg : Package) (d : String) :
    (c.transport_package pkg d).company = c ∨
    ((c.transport_package pkg d).company =
        { c with packages := c.packages ++
            [{ pkg with is_transported := true, ship_date := d }] } ∧
      pkg.validate_ship_date d = true) := by
  cases hA : pkg.validate_ship_date d <;>
    cases hB : c.validate_can_transport_package pkg <;>
      cases hC : pkg.validate_origin_destination <;>
        simp [AirCompany.transport_package, hA, hB, hC]

/-- C10 — In every company state reachable through the public API from a
fresh AirCompany, every stored package is marked transported and carries a
ship date accepted by `validate_ship_date` (in particular non-empty).  The
report queries appear in no `Reachable` constructor because in this
embedding they return only a pair of numbers: they cannot mutate the
company, its clients or its packages. -/
theorem reachable_packages_invariant (company : AirCompany)
    (h : Reachable company) :
    ∀ p ∈ company.packages, p.is_transported = true ∧
      p.validate_ship_date p.ship_date = true ∧ p.ship_date ≠ "" := by
  induction h with
  | init name => simp
  | add_client c client _ ih => simpa [AirCompany.add_client] using ih
  | transport c pkg d _ ih =>
      rcases transport_company_eq c pkg d with heq | ⟨heq, hA⟩
      · rw [heq]; exact ih
      · rw [heq]
        intro p hp
        rcases List.mem_append.mp hp with hmem | hmem
        · exact ih p hmem
        · have hpd := List.mem_singleton.mp hmem
          subst hpd
          refine ⟨rfl, hA, fun hempty => ?_⟩
          have hd0 : d = "" := hempty
          rw [hd0] at hA
          have hv : validYmd "" = true := hA
          have hfalse : validYmd "" = false := by decide
          rw [hfalse] at hv
          cases hv

/-- Witness for C10: the state reached by registering a client and
transporting one package satisfies the invariant at its stored package. -/
theorem reachable_packages_invariant_witness :
    transportOnce.package.is_transported = true ∧
    transportOnce.package.validate_ship_date transportOnce.package.ship_date
      = true ∧
    transportOnce.package.ship_date ≠ "" :=
  reachable_packages_invariant transportOnce.company
    (Reachable.transport company1 package0 "2024-02-01"
      (Reachable.add_client _ client0 (Reachable.init "company a")))
    transportOnce.package (by decide)
